import Mathlib

/-!
Verification of the GMF portfolio-optimization repository.

The numerical Python code (pandas/numpy over floats) is modelled over `ℝ`:
float arithmetic is idealized as real arithmetic, and IEEE non-numeric
results (NaN / inf) are modelled by `Option.none` where they matter.
Lists stand for pandas Series / numpy arrays; a DataFrame row is a
`List ℝ` of per-asset values, aligned positionally with a weight list.
-/

/- ===== Shared statistics (pandas `mean` / `std` with ddof = 1) ===== -/

/-- Mean of a series, as in pandas `Series.mean()` (junk value `0` on the
empty list, where pandas yields NaN; NaN-aware callers use `mean?`). -/
noncomputable def mean (xs : List ℝ) : ℝ := xs.sum / xs.length

/-- Sample variance with pandas' default `ddof = 1`: sum of squared
deviations divided by `n - 1`. -/
noncomputable def sampleVariance (xs : List ℝ) : ℝ :=
  (xs.map (fun x => (x - mean xs) ^ 2)).sum / ((xs.length : ℝ) - 1)

/-- Sample standard deviation, pandas `Series.std()` (ddof = 1). -/
noncomputable def sampleStd (xs : List ℝ) : ℝ := Real.sqrt (sampleVariance xs)

/-- pandas `Series.pct_change().dropna()`: period-over-period fractional
change, one element shorter than its source. -/
noncomputable def pctChange (xs : List ℝ) : List ℝ :=
  List.zipWith (fun prev cur => cur / prev - 1) xs xs.tail

/- ===== Uncertainty projector (src/04_forecast_future.py, lines 106-116)

  returns = tsla.pct_change().dropna()
  historical_vol = returns.std()
  t = np.arange(1, len(center) + 1)
  cumulative_std = historical_vol * np.sqrt(t / 252)
  confidence_level = 1.96
  upper = center * (1 + confidence_level * cumulative_std)
  lower = center * (1 - confidence_level * cumulative_std)
-/

/-- Cumulative projected standard deviation at 1-indexed step `t`:
`historical_vol * np.sqrt(t / 252)`. -/
noncomputable def cumulative_std (vol : ℝ) (t : ℕ) : ℝ := vol * Real.sqrt (t / 252)

/-- Upper confidence band: `center * (1 + 1.96 * cumulative_std)`,
elementwise; position `i` uses time step `t = i + 1`. -/
noncomputable def upperBand (vol : ℝ) (center : List ℝ) : List ℝ :=
  center.mapIdx (fun i c => c * (1 + 1.96 * cumulative_std vol (i + 1)))

/-- Lower confidence band: `center * (1 - 1.96 * cumulative_std)`. -/
noncomputable def lowerBand (vol : ℝ) (center : List ℝ) : List ℝ :=
  center.mapIdx (fun i c => c * (1 - 1.96 * cumulative_std vol (i + 1)))

/-- Width of the confidence band at position `i` (0 outside the horizon). -/
noncomputable def bandWidth (vol : ℝ) (center : List ℝ) (i : ℕ) : ℝ :=
  (upperBand vol center).getD i 0 - (lowerBand vol center).getD i 0

/- ===== Helper lemmas ===== -/

theorem getD_mapIdx (l : List α) (f : ℕ → α → β) (i : ℕ) (h : i < l.length) (d : β) :
    (l.mapIdx f).getD i d = f i (l.get ⟨i, h⟩) := by
  have h2 : i < (l.mapIdx f).length := by simpa using h
  rw [List.getD_eq_get _ _ h2, List.get_mapIdx]

theorem bandWidth_eq (vol : ℝ) (center : List ℝ) (i : ℕ) (h : i < center.length) :
    bandWidth vol center i = center.get ⟨i, h⟩ * (2 * 1.96 * cumulative_std vol (i + 1)) := by
  unfold bandWidth upperBand lowerBand
  rw [getD_mapIdx _ _ _ h, getD_mapIdx _ _ _ h]
  ring

theorem sampleVariance_two_elems : sampleVariance [0, 1] = 1 / 2 := by
  simp [sampleVariance, mean]
  norm_num

theorem sampleStd_two_elems_pos : 0 < sampleStd [0, 1] := by
  rw [sampleStd, sampleVariance_two_elems]
  exact Real.sqrt_pos.mpr (by norm_num)

/- ===== C1 ===== -/

/-- Claim C1, counterexample: with historical return series `[0, 1]`
(sample volatility `sqrt (1/2) > 0`) and the forecast series `[100, 1]`,
the band width at step 2 is strictly smaller than at step 1, because the
width is proportional to the forecast value, which collapses from 100 to
1.  So band width is not monotone in the step for every forecast series. -/
theorem C1_counterexample :
    0 < sampleStd [0, 1] ∧
    ¬ (bandWidth (sampleStd [0, 1]) [100, 1] 0 ≤ bandWidth (sampleStd [0, 1]) [100, 1] 1) := by
  refine ⟨sampleStd_two_elems_pos, ?_⟩
  rw [not_le, bandWidth_eq _ _ 1 (by norm_num), bandWidth_eq _ _ 0 (by norm_num)]
  have hσ : 0 < sampleStd [0, 1] := sampleStd_two_elems_pos
  have hs : 0 < Real.sqrt (1 / 252) := Real.sqrt_pos.mpr (by norm_num)
  have h2 : Real.sqrt ((2 : ℝ) / 252) = Real.sqrt 2 * Real.sqrt (1 / 252) := by
    rw [show ((2 : ℝ) / 252) = 2 * (1 / 252) by norm_num, Real.sqrt_mul (by norm_num)]
  have hr2 : Real.sqrt 2 < 2 := by
    nlinarith [Real.sq_sqrt (show (0 : ℝ) ≤ 2 by norm_num), Real.sqrt_nonneg 2]
  simp only [List.get, cumulative_std]
  push_cast
  rw [h2]
  nlinarith [mul_pos hσ hs, mul_lt_mul_of_pos_right hr2 (mul_pos hσ hs)]

/-- Claim C1, amended: for every historical return series with sample
volatility σ > 0 and every forecast series whose values are positive and
non-decreasing, the band width strictly grows with the step. -/
theorem C1_band_width_monotone (returns center : List ℝ) (i : ℕ)
    (hσ : 0 < sampleStd returns)
    (hpos : ∀ x ∈ center, 0 < x)
    (hmono : ∀ j, j + 1 < center.length → center.getD j 0 ≤ center.getD (j + 1) 0)
    (hi : i + 1 < center.length) :
    bandWidth (sampleStd returns) center i < bandWidth (sampleStd returns) center (i + 1) := by
  have hi0 : i < center.length := by omega
  rw [bandWidth_eq _ _ i hi0, bandWidth_eq _ _ (i + 1) hi]
  have hci : 0 < center.get ⟨i, hi0⟩ := hpos _ (center.get_mem _ _)
  have hcc : center.get ⟨i, hi0⟩ ≤ center.get ⟨i + 1, hi⟩ := by
    have h := hmono i hi
    rwa [List.getD_eq_get _ _ hi0, List.getD_eq_get _ _ hi] at h
  have hs1 : 0 < Real.sqrt ((((i : ℝ) + 1)) / 252) := Real.sqrt_pos.mpr (by positivity)
  have hlt : Real.sqrt (((i : ℝ) + 1) / 252) < Real.sqrt (((i : ℝ) + 1 + 1) / 252) := by
    apply Real.sqrt_lt_sqrt (by positivity)
    have : (0 : ℝ) ≤ (i : ℝ) := Nat.cast_nonneg i
    linarith
  simp only [cumulative_std]
  push_cast
  have key : center.get ⟨i, hi0⟩ * (sampleStd returns * Real.sqrt (((i : ℝ) + 1) / 252)) <
      center.get ⟨i + 1, hi⟩ * (sampleStd returns * Real.sqrt (((i : ℝ) + 1 + 1) / 252)) := by
    calc center.get ⟨i, hi0⟩ * (sampleStd returns * Real.sqrt (((i : ℝ) + 1) / 252)) ≤
        center.get ⟨i + 1, hi⟩ * (sampleStd returns * Real.sqrt (((i : ℝ) + 1) / 252)) :=
          mul_le_mul_of_nonneg_right hcc (mul_pos hσ hs1).le
      _ < center.get ⟨i + 1, hi⟩ * (sampleStd returns * Real.sqrt (((i : ℝ) + 1 + 1) / 252)) :=
          mul_lt_mul_of_pos_left (mul_lt_mul_of_pos_left hlt hσ) (hci.trans_le hcc)
  nlinarith [key]

/-- Claim C1, witness: the amended monotonicity theorem applied to the
return series `[0, 1]` and the constant positive forecast `[1, 1]`. -/
theorem C1_band_width_monotone_witness :
    bandWidth (sampleStd [0, 1]) [1, 1] 0 < bandWidth (sampleStd [0, 1]) [1, 1] 1 := by
  apply C1_band_width_monotone
  · exact sampleStd_two_elems_pos
  · intro x hx
    fin_cases hx <;> norm_num
  · intro j hj
    have hj0 : j = 0 := by
      simp only [List.length_cons, List.length_nil] at hj
      omega
    subst hj0
    simp [List.getD]
  · norm_num

/- ===== C9 ===== -/

/-- Claim C9, counterexample: for a forecast with a negative value the band
does not bracket the forecast: with historical returns `[0, 1]` and forecast
`[-1]`, `upper[0] = -1 * (1 + 1.96 * σ * sqrt (1/252)) < -1 = forecast[0]`. -/
theorem C9_counterexample :
    ¬ ((-1 : ℝ) ≤ (upperBand (sampleStd [0, 1]) [-1]).getD 0 0) := by
  rw [upperBand, getD_mapIdx _ _ _ (by norm_num)]
  have hσ : 0 < sampleStd [0, 1] := sampleStd_two_elems_pos
  have hs : 0 < Real.sqrt (1 / 252) := Real.sqrt_pos.mpr (by norm_num)
  simp only [List.get, cumulative_std]
  push_cast
  rw [not_le]
  nlinarith [mul_pos hσ hs]

/-- Claim C9, amended: whenever the forecast value at step `i` is
non-negative, the band brackets it: `lower[i] ≤ forecast[i] ≤ upper[i]`
(the volatility is a standard deviation, hence non-negative for every
historical return series). -/
theorem C9_band_brackets_forecast (returns center : List ℝ) (i : ℕ)
    (hi : i < center.length) (hc : 0 ≤ center.get ⟨i, hi⟩) :
    (lowerBand (sampleStd returns) center).getD i 0 ≤ center.get ⟨i, hi⟩ ∧
    center.get ⟨i, hi⟩ ≤ (upperBand (sampleStd returns) center).getD i 0 := by
  unfold upperBand lowerBand
  rw [getD_mapIdx _ _ _ hi, getD_mapIdx _ _ _ hi]
  have hσ : 0 ≤ sampleStd returns := Real.sqrt_nonneg _
  have hs : 0 ≤ Real.sqrt (((i : ℝ) + 1) / 252) := Real.sqrt_nonneg _
  simp only [cumulative_std]
  push_cast
  constructor <;> nlinarith [mul_nonneg (mul_nonneg hσ hs) hc]

/-- Claim C9, witness: the amended bracketing theorem applied to the return
series `[0, 1]` and the forecast `[5]` at step 0. -/
theorem C9_band_brackets_forecast_witness :
    (lowerBand (sampleStd [0, 1]) [5]).getD 0 0 ≤ ([(5 : ℝ)]).get ⟨0, by norm_num⟩ ∧
    ([(5 : ℝ)]).get ⟨0, by norm_num⟩ ≤ (upperBand (sampleStd [0, 1]) [5]).getD 0 0 := by
  apply C9_band_brackets_forecast
  norm_num [List.get]

/- ===== Sequence construction and metrics (src/src/03_forecasting_models.py)

  def create_sequences(data, seq_length):
      X, y = [], []
      for i in range(len(data) - seq_length):
          X.append(data[i:i + seq_length])
          y.append(data[i + seq_length])
      return np.array(X), np.array(y)

  lstm_pred = model.predict(X_test)             # one prediction per window
  mae_lstm  = mean_absolute_error(test[:len(lstm_pred)], lstm_pred)
-/

/-- Windows and targets of the sliding-window construction: `X[i]` is
`data[i : i+seq_length]` and `y[i]` is `data[i + seq_length]`, the value the
prediction made from window `i` is generated to forecast. -/
def create_sequences (data : List ℝ) (seq_length : ℕ) : List (List ℝ) × List ℝ :=
  ((List.range (data.length - seq_length)).map (fun i => (data.drop i).take seq_length),
   (List.range (data.length - seq_length)).map (fun i => data.getD (i + seq_length) 0))

/-- MAE = mean |actual - pred| (sklearn `mean_absolute_error`). -/
noncomputable def mae (actual pred : List ℝ) : ℝ :=
  mean (List.zipWith (fun a p => |a - p|) actual pred)

/-- RMSE = sqrt (mean (actual - pred)^2) (sqrt of sklearn `mean_squared_error`). -/
noncomputable def rmse (actual pred : List ℝ) : ℝ :=
  Real.sqrt (mean (List.zipWith (fun a p => (a - p) ^ 2) actual pred))

/-- MAPE = mean (|actual - pred| / |actual|) * 100 (sklearn
`mean_absolute_percentage_error` times 100). -/
noncomputable def mape (actual pred : List ℝ) : ℝ :=
  mean (List.zipWith (fun a p => |a - p| / |a|) actual pred) * 100

/-- The actual values the source pairs with the LSTM test predictions:
`test[:len(lstm_pred)]`, where the number of predictions is the number of
windows produced by `create_sequences`. -/
def lstmMetricActuals (test : List ℝ) (seq_length : ℕ) : List ℝ :=
  test.take ((create_sequences test seq_length).1.length)

theorem create_sequences_targets (data : List ℝ) (L : ℕ) :
    (create_sequences data L).2 = data.drop L := by
  apply List.ext_getElem
  · simp [create_sequences]
  · intro i h1 h2
    have hiL : i + L < data.length := by
      simp only [create_sequences, List.length_map, List.length_range] at h1
      omega
    simp only [create_sequences, List.getElem_map, List.getElem_range, List.getElem_drop]
    rw [List.getD_eq_getElem _ _ hiL]
    congr 1
    omega

/-- Claim C2 (code bug, LSTM path): for the 62-day test series with values
`0, 1, ..., 61` and window length 60, the targets of the two sliding
windows are `test[60], test[61] = [60, 61]` (each prediction is generated
to forecast these), but the source pairs the two predictions with
`test[:2] = [0, 1]` in the MAE/RMSE/MAPE computation, so the i-th
prediction is compared against `test[i]`, not against `test[i + 60]`,
which it was generated to forecast. -/
theorem C2_lstm_metric_misalignment :
    (create_sequences ((List.range 62).map (fun n : ℕ => (n : ℝ))) 60).2 = [(60 : ℝ), 61] ∧
    lstmMetricActuals ((List.range 62).map (fun n : ℕ => (n : ℝ))) 60 = [(0 : ℝ), 1] ∧
    ([(60 : ℝ), 61] ≠ [(0 : ℝ), 1]) := by
  refine ⟨?_, ?_, by norm_num⟩
  · rw [create_sequences_targets, ← List.map_drop,
      show (List.range 62).drop 60 = [60, 61] from by decide]
    norm_num
  · rw [lstmMetricActuals]
    have hlen : ((create_sequences ((List.range 62).map (fun n : ℕ => (n : ℝ))) 60).1).length = 2 := by
      simp only [create_sequences, List.length_map, List.length_range]
    rw [hlen, ← List.map_take, show (List.range 62).take 2 = [0, 1] from by decide]
    norm_num

/- ===== Backtest simulator (src/src/06_backtesting.py)

  asset_returns = backtest_df.pct_change().dropna()
  def portfolio_cumulative_returns(returns_df, weights):
      weighted_returns = (returns_df * weights).sum(axis=1)
      cum_returns = (1 + weighted_returns).cumprod()
      return cum_returns
  def annualized_sharpe_ratio(returns, rf=0.03):
      excess_returns = returns - rf / 252
      return (excess_returns.mean() / excess_returns.std()) * np.sqrt(252)
  total_return_strategy = (cumulative_strategy.iloc[-1] - 1) * 100
-/

/-- Per-asset daily returns, `backtest_df.pct_change().dropna()`: row `t`
holds the fractional change from day `t` to day `t+1`; the first (NaN) row
is dropped. -/
noncomputable def asset_returns (rows : List (List ℝ)) : List (List ℝ) :=
  List.zipWith (fun prev cur => List.zipWith (fun p c => c / p - 1) prev cur) rows rows.tail

/-- Daily portfolio returns `(returns_df * weights).sum(axis=1)`, with
weights aligned positionally with the row entries. -/
noncomputable def weighted_returns (returns_df : List (List ℝ)) (weights : List ℝ) : List ℝ :=
  returns_df.map (fun row => (List.zipWith (fun r w => r * w) row weights).sum)

/-- Cumulative portfolio returns `(1 + weighted_returns).cumprod()`. -/
noncomputable def portfolio_cumulative_returns (returns_df : List (List ℝ))
    (weights : List ℝ) : List ℝ :=
  (((weighted_returns returns_df weights).map (fun r => 1 + r)).scanl
    (fun acc x => acc * x) 1).tail

/-- Total return percent `(cumulative.iloc[-1] - 1) * 100`; indexing an
empty series is an error in the source, modelled here by default `1`
(giving 0 percent), never reached by the claims. -/
noncomputable def total_return (cum : List ℝ) : ℝ := (cum.getLastD 1 - 1) * 100

/-- pandas `mean()` as an IEEE-aware value: the mean of an empty series is
NaN, modelled as `none`. -/
noncomputable def mean? (xs : List ℝ) : Option ℝ :=
  if xs.length = 0 then none else some (mean xs)

/-- pandas `std()` (ddof = 1) as an IEEE-aware value: with fewer than two
observations the result is NaN, modelled as `none`. -/
noncomputable def sampleStd? (xs : List ℝ) : Option ℝ :=
  if xs.length < 2 then none else some (sampleStd xs)

/-- IEEE float division with non-numeric results modelled by `none`:
division by zero yields inf or NaN, and any operation involving NaN yields
NaN; all of these are collapsed into `none`. -/
noncomputable def nanDiv (x y : Option ℝ) : Option ℝ :=
  match x, y with
  | some a, some b => if b = 0 then none else some (a / b)
  | _, _ => none

/-- `excess_returns = returns - rf / 252`. -/
noncomputable def excess_returns (returns : List ℝ) (rf : ℝ) : List ℝ :=
  returns.map (fun r => r - rf / 252)

/-- `annualized_sharpe_ratio`: `(excess.mean() / excess.std()) * sqrt 252`
with no guard on the divisor; a non-numeric (NaN/inf) result is `none`. -/
noncomputable def annualized_sharpe_ratio (returns : List ℝ) (rf : ℝ) : Option ℝ :=
  (nanDiv (mean? (excess_returns returns rf)) (sampleStd? (excess_returns returns rf))).map
    (fun q => q * Real.sqrt 252)

theorem nanDiv_none_right (x : Option ℝ) : nanDiv x none = none := by
  cases x <;> rfl

theorem nanDiv_some_zero (x : Option ℝ) : nanDiv x (some 0) = none := by
  cases x with
  | none => rfl
  | some a => simp [nanDiv]

theorem mean_constant (xs : List ℝ) (c : ℝ) (hne : xs ≠ []) (hc : ∀ x ∈ xs, x = c) :
    mean xs = c := by
  have hsum : xs.sum = xs.length • c := List.sum_eq_card_nsmul xs c hc
  have hn : (xs.length : ℝ) ≠ 0 := by
    have := List.length_pos.mpr hne
    positivity
  rw [mean, hsum, nsmul_eq_mul]
  field_simp

theorem sampleVariance_constant (xs : List ℝ) (c : ℝ) (hc : ∀ x ∈ xs, x = c) :
    sampleVariance xs = 0 := by
  rcases eq_or_ne xs [] with h | h
  · subst h
    simp [sampleVariance]
  · have hm : mean xs = c := mean_constant xs c h hc
    have hz : (xs.map (fun x => (x - mean xs) ^ 2)).sum = 0 := by
      apply List.sum_eq_zero
      intro y hy
      simp only [List.mem_map] at hy
      obtain ⟨x, hx, rfl⟩ := hy
      rw [hm, hc x hx]
      ring
    rw [sampleVariance, hz, zero_div]

/-- Claim C10: `annualized_sharpe_ratio` divides by the standard deviation
of excess returns with no guard: for every return series whose excess
returns are constant (zero sample standard deviation) or that has fewer
than two elements, the result is non-numeric (NaN/inf, modelled `none`)
rather than an error. -/
theorem C10_sharpe_non_numeric (returns : List ℝ) (rf : ℝ)
    (h : (∃ c, ∀ x ∈ excess_returns returns rf, x = c) ∨ returns.length < 2) :
    annualized_sharpe_ratio returns rf = none := by
  unfold annualized_sharpe_ratio
  by_cases hlen : returns.length < 2
  · have hl : (excess_returns returns rf).length < 2 := by
      simpa [excess_returns] using hlen
    rw [show sampleStd? (excess_returns returns rf) = none from if_pos hl, nanDiv_none_right]
    rfl
  · rcases h with ⟨c, hc⟩ | h2
    · have hl : ¬ (excess_returns returns rf).length < 2 := by
        simpa [excess_returns] using hlen
      have hstd : sampleStd (excess_returns returns rf) = 0 := by
        rw [sampleStd, sampleVariance_constant _ c hc, Real.sqrt_zero]
      rw [show sampleStd? (excess_returns returns rf) = some 0 from by
        rw [sampleStd?, if_neg hl, hstd]]
      rw [nanDiv_some_zero]
      rfl
    · exact absurd h2 hlen

/-- Claim C10, witness: the constant return series `[1/2, 1/2]` at the
default risk-free rate 3 percent yields a non-numeric Sharpe ratio. -/
theorem C10_sharpe_non_numeric_witness :
    annualized_sharpe_ratio [1/2, 1/2] (3/100) = none := by
  apply C10_sharpe_non_numeric
  left
  refine ⟨1/2 - 3/100/252, ?_⟩
  intro x hx
  simp only [excess_returns, List.map_cons, List.map_nil] at hx
  fin_cases hx <;> norm_num

/-- Claim C8: if the strategy weight vector equals the benchmark weight
vector, the computed total returns coincide exactly, and so do the
annualized Sharpe ratios of the cumulative-return series. -/
theorem C8_equal_weights_equal_performance (rows : List (List ℝ)) (ws wb : List ℝ)
    (h : ws = wb) :
    total_return (portfolio_cumulative_returns (asset_returns rows) ws) =
      total_return (portfolio_cumulative_returns (asset_returns rows) wb) ∧
    annualized_sharpe_ratio
        (pctChange (portfolio_cumulative_returns (asset_returns rows) ws)) (3/100) =
      annualized_sharpe_ratio
        (pctChange (portfolio_cumulative_returns (asset_returns rows) wb)) (3/100) := by
  subst h
  exact ⟨rfl, rfl⟩

/-- Claim C8, witness: the equal-weights theorem applied to a concrete
two-day, one-asset window with identical strategy and benchmark weights. -/
theorem C8_equal_weights_equal_performance_witness :
    total_return (portfolio_cumulative_returns (asset_returns [[100], [102]]) [1]) =
      total_return (portfolio_cumulative_returns (asset_returns [[100], [102]]) [1]) ∧
    annualized_sharpe_ratio
        (pctChange (portfolio_cumulative_returns (asset_returns [[100], [102]]) [1])) (3/100) =
      annualized_sharpe_ratio
        (pctChange (portfolio_cumulative_returns (asset_returns [[100], [102]]) [1])) (3/100) :=
  C8_equal_weights_equal_performance [[100], [102]] [1] [1] rfl

/- ===== Forward fill over calendar days (src/src/06_backtesting.py, line 68)

  backtest_df = backtest_df.asfreq('D').ffill()

A chronologically sorted multi-asset price frame is a list of
(calendar day, row) pairs; `asfreq('D')` reindexes to every calendar day
from the first to the last, and `ffill()` gives each inserted day the most
recent preceding row. -/

/-- Row of the series on the latest original day at or before calendar day
`d` (the value forward fill assigns to day `d`); `none` if no day of the
series is at or before `d`. -/
def lastEntryUpTo (s : List (ℕ × List ℝ)) (d : ℕ) : Option (List ℝ) :=
  ((s.filter (fun p => p.1 ≤ d)).getLast?).map Prod.snd

/-- First calendar day of the series (`index.min()` for sorted data). -/
def firstDay (s : List (ℕ × List ℝ)) : ℕ := (s.headD (0, [])).1

/-- Last calendar day of the series (`index.max()` for sorted data). -/
def lastDay (s : List (ℕ × List ℝ)) : ℕ := (s.getLastD (0, [])).1

/-- `asfreq('D').ffill()`: one row per calendar day from the first day to
the last, each day taking the most recent row at or before it. -/
def ffillDaily (s : List (ℕ × List ℝ)) : List (List ℝ) :=
  (List.range (lastDay s - firstDay s + 1)).map
    (fun i => (lastEntryUpTo s (firstDay s + i)).getD [])

theorem lastEntryUpTo_not_mem (s : List (ℕ × List ℝ)) (d : ℕ) (hd : 1 ≤ d)
    (h : ∀ p ∈ s, p.1 ≠ d) : lastEntryUpTo s d = lastEntryUpTo s (d - 1) := by
  have hf : s.filter (fun p => p.1 ≤ d) = s.filter (fun p => p.1 ≤ d - 1) := by
    apply List.filter_congr
    intro p hp
    have hpd := h p hp
    simp only [decide_eq_decide]
    omega
  unfold lastEntryUpTo
  rw [hf]

theorem ffillDaily_getD (s : List (ℕ × List ℝ)) (i : ℕ)
    (hi : i < lastDay s - firstDay s + 1) :
    (ffillDaily s).getD i [] = (lastEntryUpTo s (firstDay s + i)).getD [] := by
  unfold ffillDaily
  have hl : i < ((List.range (lastDay s - firstDay s + 1)).map
      (fun i => (lastEntryUpTo s (firstDay s + i)).getD [])).length := by
    simpa using hi
  rw [List.getD_eq_getElem _ _ hl]
  simp

theorem lastEntryUpTo_mem (s : List (ℕ × List ℝ)) (d : ℕ) (r : List ℝ)
    (h : lastEntryUpTo s d = some r) : ∃ p ∈ s, p.2 = r := by
  unfold lastEntryUpTo at h
  cases hq : (s.filter (fun p => p.1 ≤ d)).getLast? with
  | none => rw [hq] at h; simp at h
  | some q =>
    rw [hq] at h
    simp only [Option.map_some'] at h
    exact ⟨q, List.mem_of_mem_filter (List.mem_of_mem_getLast? hq), Option.some_injective _ h⟩

theorem sum_zipWith_mul_zeros (r w : List ℝ) (hr : ∀ x ∈ r, x = 0) :
    (List.zipWith (fun a b => a * b) r w).sum = 0 := by
  induction r generalizing w with
  | nil => simp
  | cons a r ih =>
    cases w with
    | nil => simp
    | cons b w =>
      simp only [List.zipWith_cons_cons, List.sum_cons]
      rw [hr a (by simp), ih w (fun x hx => hr x (by simp [hx]))]
      ring

theorem asset_returns_getD (rows : List (List ℝ)) (j : ℕ) (hj : j + 1 < rows.length) :
    (asset_returns rows).getD j [] =
      List.zipWith (fun p c => c / p - 1) (rows.getD j []) (rows.getD (j + 1) []) := by
  unfold asset_returns
  have hlen : j < (List.zipWith
      (fun prev cur => List.zipWith (fun p c => c / p - 1) prev cur) rows rows.tail).length := by
    rw [List.length_zipWith, List.length_tail]
    omega
  rw [List.getD_eq_getElem _ _ hlen, List.getElem_zipWith,
    List.getD_eq_getElem _ _ (by omega : j < rows.length),
    List.getD_eq_getElem _ _ hj, List.getElem_tail]

theorem getD_map_list (f : List ℝ → ℝ) (l : List (List ℝ)) (j : ℕ) (hj : j < l.length) :
    (l.map f).getD j 0 = f (l.getD j []) := by
  rw [List.getD_eq_getElem _ _ (by simpa using hj), List.getElem_map,
    List.getD_eq_getElem _ _ hj]

/-- Claim C3, amended: every missing calendar day strictly inside the
window is forward-filled with the row of the prior day, and consequently
each such gap day registers as a zero-return day in the daily portfolio
return series (for any weight vector), rather than not registering. -/
theorem C3_ffill_gap_is_zero_return_day (s : List (ℕ × List ℝ)) (w : List ℝ) (d : ℕ)
    (hd1 : firstDay s < d) (hd2 : d ≤ lastDay s)
    (hmiss : ∀ p ∈ s, p.1 ≠ d)
    (hnz : ∀ p ∈ s, ∀ x ∈ p.2, x ≠ 0) :
    (ffillDaily s).getD (d - firstDay s) [] = (ffillDaily s).getD (d - firstDay s - 1) [] ∧
    (weighted_returns (asset_returns (ffillDaily s)) w).getD (d - firstDay s - 1) 0 = 0 := by
  have hfill : (ffillDaily s).getD (d - firstDay s) [] =
      (ffillDaily s).getD (d - firstDay s - 1) [] := by
    rw [ffillDaily_getD _ _ (by omega), ffillDaily_getD _ _ (by omega),
      show firstDay s + (d - firstDay s) = d by omega,
      show firstDay s + (d - firstDay s - 1) = d - 1 by omega,
      lastEntryUpTo_not_mem s d (by omega) hmiss]
  refine ⟨hfill, ?_⟩
  have hlen : (ffillDaily s).length = lastDay s - firstDay s + 1 := by
    unfold ffillDaily
    simp
  have hj : d - firstDay s - 1 + 1 < (ffillDaily s).length := by omega
  have hjar : d - firstDay s - 1 < (asset_returns (ffillDaily s)).length := by
    unfold asset_returns
    rw [List.length_zipWith, List.length_tail]
    omega
  rw [weighted_returns, getD_map_list _ _ _ hjar, asset_returns_getD _ _ hj,
    show d - firstDay s - 1 + 1 = d - firstDay s by omega, hfill, List.zipWith_same]
  set r := (ffillDaily s).getD (d - firstDay s - 1) [] with hr
  apply sum_zipWith_mul_zeros
  intro x hx
  simp only [List.mem_map] at hx
  obtain ⟨y, hy, rfl⟩ := hx
  have hy0 : y ≠ 0 := by
    have hrval : r = (lastEntryUpTo s (d - 1)).getD [] := by
      rw [hr, ffillDaily_getD _ _ (by omega),
        show firstDay s + (d - firstDay s - 1) = d - 1 by omega]
    cases hcase : lastEntryUpTo s (d - 1) with
    | none =>
      rw [hrval, hcase] at hy
      simp at hy
    | some rr =>
      obtain ⟨p, hp, hpr⟩ := lastEntryUpTo_mem s (d - 1) rr hcase
      rw [hrval, hcase] at hy
      exact hnz p hp y (by rw [hpr]; simpa using hy)
  field_simp

/-- Claim C3, counterexample: for the series with prices 100 on day 0 and
110 on day 2 (day 1 missing) under the single-asset weight vector `[1]`,
the computed daily portfolio return series is `[0, 1/10]`: the gap day 1
registers exactly as a zero-return day, contradicting the stated rationale
that gaps do not register as zero-return days. -/
theorem C3_counterexample :
    (1 : ℕ) ∉ ([((0 : ℕ), [(100 : ℝ)]), (2, [110])].map Prod.fst) ∧
    weighted_returns (asset_returns (ffillDaily [((0 : ℕ), [(100 : ℝ)]), (2, [110])])) [1] =
      [0, 1/10] := by
  constructor
  · norm_num
  · have h1 : ffillDaily [((0 : ℕ), [(100 : ℝ)]), (2, [110])] = [[100], [100], [110]] := by
      norm_num [ffillDaily, firstDay, lastDay, lastEntryUpTo,
        show List.range 3 = [0, 1, 2] from by decide, List.filter]
    rw [h1]
    norm_num [asset_returns, weighted_returns]

/-- Concrete price series with day 1 missing: 100 on day 0, 110 on day 2. -/
def gapSeries : List (ℕ × List ℝ) := [(0, [100]), (2, [110])]

/-- Claim C3, witness: the amended theorem at the concrete series with days
0 and 2 (calendar day 1 missing) and the weight vector `[1]`. -/
theorem C3_ffill_gap_is_zero_return_day_witness :
    (ffillDaily gapSeries).getD (1 - firstDay gapSeries) [] =
      (ffillDaily gapSeries).getD (1 - firstDay gapSeries - 1) [] ∧
    (weighted_returns (asset_returns (ffillDaily gapSeries)) [1]).getD
      (1 - firstDay gapSeries - 1) 0 = 0 := by
  apply C3_ffill_gap_is_zero_return_day
  · norm_num [firstDay, gapSeries]
  · norm_num [lastDay, gapSeries]
  · intro p hp
    fin_cases hp <;> norm_num
  · intro p hp
    fin_cases hp <;> norm_num

/- ===== C5: the 3-day scenario ===== -/

/-- Claim C5, counterexample: for the 3-day price series `[100, 102, 99]`
under the single-asset weight vector `[1]`, the computed cumulative-return
series is `[51/50, 99/100]` and the total return is exactly `-1` percent;
the second cumulative value `0.99` differs from the claimed `0.9902` by
`0.0002 > 0.0001`, and the total return `-1.0` differs from the claimed
`-0.98` by `0.02 > 0.005`, beyond any rounding of the stated figures. -/
theorem C5_counterexample :
    portfolio_cumulative_returns (asset_returns [[100], [102], [99]]) [1] = [51/50, 99/100] ∧
    total_return (portfolio_cumulative_returns (asset_returns [[100], [102], [99]]) [1]) = -1 ∧
    |(99 : ℝ)/100 - 9902/10000| > 1/10000 ∧
    |(-1 : ℝ) - (-98/100)| > 5/1000 := by
  have h1 : asset_returns [[100], [102], [99]] = [[1/50], [-1/34]] := by
    norm_num [asset_returns]
  have h2 : portfolio_cumulative_returns (asset_returns [[100], [102], [99]]) [1] =
      [51/50, 99/100] := by
    rw [h1]
    norm_num [portfolio_cumulative_returns, weighted_returns, List.scanl]
  refine ⟨h2, ?_, by rw [abs_sub_comm]; norm_num [abs_of_pos], by norm_num [abs_of_pos]⟩
  rw [h2]
  norm_num [total_return]

/-- Claim C5, amended: the 3-day price series `[100, 102, 99]` under the
weight vector `[1]` yields daily portfolio returns `[1/50, -1/34]`
(`[0.02, -0.0294...]`), cumulative returns `[1.02, 0.99]`, and total
return exactly `-1.0` percent. -/
theorem C5_scenario :
    weighted_returns (asset_returns [[100], [102], [99]]) [1] = [1/50, -1/34] ∧
    portfolio_cumulative_returns (asset_returns [[100], [102], [99]]) [1] = [51/50, 99/100] ∧
    total_return (portfolio_cumulative_returns (asset_returns [[100], [102], [99]]) [1]) = -1 ∧
    |(-1 : ℝ)/34 - (-294/10000)| < 1/10000 := by
  have h1 : asset_returns [[100], [102], [99]] = [[1/50], [-1/34]] := by
    norm_num [asset_returns]
  have h2 : weighted_returns (asset_returns [[100], [102], [99]]) [1] = [1/50, -1/34] := by
    rw [h1]
    norm_num [weighted_returns]
  have h3 : portfolio_cumulative_returns (asset_returns [[100], [102], [99]]) [1] =
      [51/50, 99/100] := by
    rw [portfolio_cumulative_returns, h2]
    norm_num [List.scanl]
  refine ⟨h2, h3, ?_, ?_⟩
  · rw [h3]
    norm_num [total_return]
  · rw [abs_of_neg (by norm_num)]
    norm_num

/- ===== Backtest verdict (src/src/06_backtesting.py, lines 152-164)

  outperformed_return = total_return_strategy > total_return_benchmark
  outperformed_sharpe = sharpe_strategy > sharpe_benchmark
  if outperformed_return and outperformed_sharpe:  "outperformed ..."
  elif outperformed_return:                        "higher total return but lower Sharpe"
  else:                                            "the benchmark outperformed"
-/

/-- The three conclusions the backtest can report. -/
inductive Verdict where
  | outperformed
  | higherReturnOnly
  | benchmarkOutperformed
deriving DecidableEq

/-- IEEE float `>` lifted to possibly non-numeric values: every comparison
involving NaN is false. -/
noncomputable def nanGT (x y : Option ℝ) : Bool :=
  match x, y with
  | some a, some b => decide (b < a)
  | _, _ => false

/-- The conclusion branch of the backtest. -/
noncomputable def backtestVerdict (trS trB : ℝ) (shS shB : Option ℝ) : Verdict :=
  if trB < trS ∧ nanGT shS shB = true then Verdict.outperformed
  else if trB < trS then Verdict.higherReturnOnly
  else Verdict.benchmarkOutperformed

/-- Claim C4: the verdict is "outperformed" iff the strategy total return
exceeds the benchmark's AND the strategy Sharpe exceeds the benchmark's;
in every other case one of the two qualified/negative verdicts results. -/
theorem C4_verdict_iff (trS trB shS shB : ℝ) :
    (backtestVerdict trS trB (some shS) (some shB) = Verdict.outperformed ↔
      (trB < trS ∧ shB < shS)) ∧
    (¬ (trB < trS ∧ shB < shS) →
      backtestVerdict trS trB (some shS) (some shB) = Verdict.higherReturnOnly ∨
      backtestVerdict trS trB (some shS) (some shB) = Verdict.benchmarkOutperformed) := by
  by_cases h1 : trB < trS <;> by_cases h2 : shB < shS <;>
    simp [backtestVerdict, nanGT, h1, h2]

/-- Claim C4, witness: the verdict characterization at the concrete inputs
(total returns 2 vs 1, Sharpe ratios 2 vs 1). -/
theorem C4_verdict_iff_witness :
    (backtestVerdict 2 1 (some 2) (some 1) = Verdict.outperformed ↔
      ((1 : ℝ) < 2 ∧ (1 : ℝ) < 2)) ∧
    (¬ ((1 : ℝ) < 2 ∧ (1 : ℝ) < 2) →
      backtestVerdict 2 1 (some 2) (some 1) = Verdict.higherReturnOnly ∨
      backtestVerdict 2 1 (some 2) (some 1) = Verdict.benchmarkOutperformed) :=
  C4_verdict_iff 2 1 2 1

/- ===== Serving layer (src/backend/services) ===== -/

/-- JSON-like values returned by the service layer. -/
inductive JVal where
  | num (x : ℝ)
  | str (s : String)
  | flag (b : Bool)
  | arr (xs : List JVal)
  | obj (fields : List (String × JVal))

/-- Keys of a JSON object (empty for non-objects). -/
def JVal.keys : JVal → List String
  | JVal.obj fields => fields.map Prod.fst
  | _ => []

/-- The persisted backtest result dict (src/src/06_backtesting.py, lines
169-175): five entries including the boolean `outperformed`. -/
structure BacktestResults where
  strategy_return : ℝ
  benchmark_return : ℝ
  strategy_sharpe : ℝ
  benchmark_sharpe : ℝ
  outperformed : Bool

/-- `get_backtest_results` (src/backend/services/portfolio_service.py,
lines 47-53): the record built from the loaded results dict. -/
def get_backtest_results (r : BacktestResults) : JVal :=
  JVal.obj [("strategy_return", JVal.num r.strategy_return),
            ("benchmark_return", JVal.num r.benchmark_return),
            ("strategy_sharpe", JVal.num r.strategy_sharpe),
            ("benchmark_sharpe", JVal.num r.benchmark_sharpe)]

/-- Claim C6, counterexample: for the persisted backtest result
(1, 2, 3, 4, true), the record returned by `get_backtest_results` has
exactly the four keys strategy_return, benchmark_return, strategy_sharpe
and benchmark_sharpe; `outperformed` is not among its fields, so the
returned record does not contain all five claimed fields. -/
theorem C6_counterexample :
    (get_backtest_results ⟨1, 2, 3, 4, true⟩).keys =
      ["strategy_return", "benchmark_return", "strategy_sharpe", "benchmark_sharpe"] ∧
    "outperformed" ∉ (get_backtest_results ⟨1, 2, 3, 4, true⟩).keys := by
  refine ⟨rfl, ?_⟩
  show "outperformed" ∉
    ["strategy_return", "benchmark_return", "strategy_sharpe", "benchmark_sharpe"]
  decide

/-- Claim C6, amended: `get_backtest_results` returns a record containing
the four fields strategy_return, benchmark_return, strategy_sharpe and
benchmark_sharpe, each taken from the persisted backtest result; the
persisted `outperformed` flag is not included in the returned record. -/
theorem C6_backtest_result_fields (r : BacktestResults) :
    get_backtest_results r =
      JVal.obj [("strategy_return", JVal.num r.strategy_return),
                ("benchmark_return", JVal.num r.benchmark_return),
                ("strategy_sharpe", JVal.num r.strategy_sharpe),
                ("benchmark_sharpe", JVal.num r.benchmark_sharpe)] ∧
    "outperformed" ∉ (get_backtest_results r).keys := by
  refine ⟨rfl, ?_⟩
  show "outperformed" ∉
    ["strategy_return", "benchmark_return", "strategy_sharpe", "benchmark_sharpe"]
  decide

/-- The persisted model-comparison metrics dict read by
`get_model_comparison` (src/backend/services/forecast_service.py). -/
structure ModelMetrics where
  arima_rmse : ℝ
  arima_mape : ℝ
  lstm_rmse : ℝ
  lstm_mape : ℝ

/-- Python `round(x, 2)` idealized over the reals: round half to even at
two decimal places. -/
noncomputable def pyRound (x : ℝ) : ℤ :=
  if x - Int.floor x < 1/2 then Int.floor x
  else if x - Int.floor x > 1/2 then Int.floor x + 1
  else if Int.floor x % 2 = 0 then Int.floor x else Int.floor x + 1

noncomputable def round2 (x : ℝ) : ℝ := (pyRound (x * 100) : ℝ) / 100

/-- `get_model_comparison` (src/backend/services/forecast_service.py,
lines 37-64): with persisted metrics present it returns their rounded
values; with them absent it returns the hardcoded fallback rows.  Both
results are an object with the single key "models". -/
noncomputable def get_model_comparison (persisted : Option ModelMetrics) : JVal :=
  match persisted with
  | some m => JVal.obj [("models", JVal.arr
      [JVal.obj [("name", JVal.str "ARIMA"), ("RMSE", JVal.num (round2 m.arima_rmse)),
                 ("MAPE", JVal.num (round2 m.arima_mape))],
       JVal.obj [("name", JVal.str "LSTM"), ("RMSE", JVal.num (round2 m.lstm_rmse)),
                 ("MAPE", JVal.num (round2 m.lstm_mape))]])]
  | none => JVal.obj [("models", JVal.arr
      [JVal.obj [("name", JVal.str "ARIMA"), ("RMSE", JVal.num 9.12),
                 ("MAPE", JVal.num 6.8)],
       JVal.obj [("name", JVal.str "LSTM"), ("RMSE", JVal.num 6.38),
                 ("MAPE", JVal.num 4.9)]])]

theorem pyRound_intCast (n : ℤ) : pyRound (n : ℝ) = n := by
  unfold pyRound
  rw [Int.floor_intCast]
  norm_num

theorem round2_eval (n : ℤ) (x : ℝ) (h : x * 100 = (n : ℝ)) : round2 x = (n : ℝ) / 100 := by
  rw [round2, h, pyRound_intCast]

/-- Claim C7 (code bug): the fallback model-comparison result carries no
flag: its only key is "models", and it equals, value for value, the result
of a real computation whose persisted metrics are the fallback numbers, so
a consumer cannot distinguish the substituted fallback from a really
computed result. -/
theorem C7_fallback_indistinguishable :
    (get_model_comparison none).keys = ["models"] ∧
    get_model_comparison (some ⟨9.12, 6.8, 6.38, 4.9⟩) = get_model_comparison none := by
  refine ⟨rfl, ?_⟩
  show JVal.obj [("models", JVal.arr
      [JVal.obj [("name", JVal.str "ARIMA"), ("RMSE", JVal.num (round2 9.12)),
                 ("MAPE", JVal.num (round2 6.8))],
       JVal.obj [("name", JVal.str "LSTM"), ("RMSE", JVal.num (round2 6.38)),
                 ("MAPE", JVal.num (round2 4.9))]])] = _
  rw [show round2 (9.12 : ℝ) = ((912 : ℤ) : ℝ) / 100 from round2_eval 912 _ (by norm_num),
    show round2 (6.8 : ℝ) = ((680 : ℤ) : ℝ) / 100 from round2_eval 680 _ (by norm_num),
    show round2 (6.38 : ℝ) = ((638 : ℤ) : ℝ) / 100 from round2_eval 638 _ (by norm_num),
    show round2 (4.9 : ℝ) = ((490 : ℤ) : ℝ) / 100 from round2_eval 490 _ (by norm_num)]
  show _ = JVal.obj [("models", JVal.arr
      [JVal.obj [("name", JVal.str "ARIMA"), ("RMSE", JVal.num 9.12), ("MAPE", JVal.num 6.8)],
       JVal.obj [("name", JVal.str "LSTM"), ("RMSE", JVal.num 6.38), ("MAPE", JVal.num 4.9)]])]
  norm_num
